import Mathlib

/-!
Shallow embedding of the repository `reporting_python` (executed lesson
scripts under `_build/jupyter_execute/`) together with theorems settling
the specification claims.

Numeric values are modelled over `ℚ`; Python loops become folds or
structural recursion; the potentially non-terminating recursion of
`my_factorial` is modelled with explicit fuel, returning `Option ℤ`.
-/

namespace ReportingPython

/-! ### 03_python_basics.py -/

/-- Embedding of `my_mean` (03_python_basics.py lines 519-525): a running
sum and a running element count accumulated over the argument list, with
the quotient returned at the end. -/
def my_mean (arg_list : List ℚ) : ℚ :=
  let r := arg_list.foldl (fun acc el => (acc.1 + el, acc.2 + 1)) ((0 : ℚ), (0 : ℕ))
  r.1 / (r.2 : ℚ)

/-- Semantics of `np.mean` on a one-dimensional array, from the numpy
documentation: the sum of the elements divided by their number. -/
def np_mean (xs : List ℚ) : ℚ :=
  xs.sum / (xs.length : ℚ)

/-- Embedding of `return_list` (03_python_basics.py lines 539-540): the
list comprehension `[i for i in range(n)]`. -/
def return_list (n : ℕ) : List ℕ :=
  (List.range n).map (fun i => i)

/-- Embedding of the body of the generator `yield_list`
(03_python_basics.py lines 542-546): the `while i < n` loop started at
counter value `i`, collecting the yielded values in order. -/
def yield_list_from (i n : ℕ) : List ℕ :=
  if h : i < n then i :: yield_list_from (i + 1) n else []
termination_by n - i
decreasing_by omega

/-- Embedding of `yield_list n`: the full sequence of values the
generator yields, i.e. the loop started at `i = 0`. -/
def yield_list (n : ℕ) : List ℕ :=
  yield_list_from 0 n

/-- Embedding of `my_factorial` (03_python_basics.py lines 617-621) over
the Python integers, with explicit fuel: `none` means the recursion did
not reach the base case within the given fuel. -/
def my_factorial : ℕ → ℤ → Option ℤ
  | 0, _ => none
  | fuel + 1, n =>
      if n = 0 then some 1
      else Option.map (fun r => n * r) (my_factorial fuel (n - 1))

/-- Embedding of the `Student` class (03_python_basics.py lines 743-751). -/
structure Student where
  uni : String
  subject : String
  grades : List ℚ

/-- The `Student.__init__` constructor: stores the three arguments in the
instance fields. -/
def Student.init (uni subject : String) (grades : List ℚ) : Student :=
  ⟨uni, subject, grades⟩

/-- The `Student.avg_grade` method: `np.mean(self.grades)`. -/
def Student.avg_grade (s : Student) : ℚ :=
  np_mean s.grades

/-- Embedding of the `LocalResident` class (03_python_basics.py lines
774-777), which inherits from `Student`. -/
structure LocalResident extends Student where
  address : String

/-- The `LocalResident.__init__` constructor: calls
`super().__init__(uni, subject, grades)` and then stores the address. -/
def LocalResident.init (uni subject : String) (grades : List ℚ)
    (address : String) : LocalResident :=
  ⟨Student.init uni subject grades, address⟩

/-! ### 13_financial_stats.py -/

/-- Semantics of `Series.rolling(w).mean()` from the pandas
documentation: entry `i` is the mean of the window of the `w` values
ending at position `i`, and `NaN` (modelled as `none`) while fewer than
`w` observations are available. -/
def rollingMean (w : ℕ) (xs : List ℚ) : List (Option ℚ) :=
  (List.range xs.length).map (fun i =>
    if i + 1 < w then none
    else some (np_mean ((xs.take (i + 1)).drop (i + 1 - w))))

/-- Elementwise subtraction of two pandas series with `NaN` propagation:
the difference is `NaN` unless both operands are numbers. -/
def optSub : Option ℚ → Option ℚ → Option ℚ
  | some x, some y => some (x - y)
  | _, _ => none

/-- The result of `awe_osc`: a one-column dataframe, a column name
together with the column values. -/
structure AweOscDF where
  name : String
  values : List (Option ℚ)

/-- The body of `awe_osc` (13_financial_stats.py lines 289-296) after the
initial swap: the median price `0.5 * (high + low)`, its two rolling
means, their difference, and the column name `AO_{fast}_{slow}`. -/
def awe_osc_body (high low : List ℚ) (fast slow : ℕ) : AweOscDF :=
  let median_price := List.zipWith (fun h l => (1 / 2 : ℚ) * (h + l)) high low
  let fast_sma := rollingMean fast median_price
  let slow_sma := rollingMean slow median_price
  { name := "AO_" ++ toString fast ++ "_" ++ toString slow
    values := List.zipWith optSub fast_sma slow_sma }

/-- Embedding of `awe_osc` (13_financial_stats.py lines 285-296): if
`slow < fast` the two window sizes are swapped, then the oscillator is
computed. -/
def awe_osc (high low : List ℚ) (fast slow : ℕ) : AweOscDF :=
  if slow < fast then awe_osc_body high low slow fast
  else awe_osc_body high low fast slow

/-! ### 06_scraping.py - the followSpider crawl

A website is modelled as a function from a URL to the list of anchor
hrefs found on that page. The scrapy engine is modelled as a FIFO queue
of pending `(url, callback)` requests processed with explicit fuel; each
processed request records its fetched URL and enqueues the follow-up
requests its callback yields. -/

/-- The two callbacks defined by `followSpider` (06_scraping.py lines
458-478): `parse_links` extracts every href and follows each with
callback `parse`; `parse` prints the URL and the page text and yields no
further request. -/
inductive Callback where
  | parse_links : Callback
  | parse : Callback
deriving DecidableEq

/-- The follow-up requests a callback of `followSpider` yields for a
fetched page. -/
def cbRequests (web : String → List String) :
    Callback → String → List (String × Callback)
  | Callback.parse_links, url => (web url).map (fun l => (l, Callback.parse))
  | Callback.parse, _ => []

/-- The crawling engine: pop the next pending request, record the fetched
URL, enqueue the requests its callback yields, and continue while fuel
remains. -/
def runCrawl (web : String → List String) : ℕ → List (String × Callback) → List String
  | 0, _ => []
  | _ + 1, [] => []
  | fuel + 1, (u, cb) :: rest =>
      u :: runCrawl web fuel (rest ++ cbRequests web cb u)

/-- The crawl performed by `followSpider`: `start_requests` (lines
463-468) seeds the queue with the single request
`(seed, parse_links)`. -/
def followSpiderCrawl (web : String → List String) (seed : String) (fuel : ℕ) :
    List String :=
  runCrawl web fuel [(seed, Callback.parse_links)]

/-! ### 05_online.py - the dji_hist download loop -/

/-- Outcome of the download loop of 05_online.py lines 325-343: the
collected per-symbol rows, the symbols actually requested, and whether
the loop aborted after printing the error message. -/
structure DjiState where
  data : List (String × List ℚ)
  requested : List String
  aborted : Bool
deriving DecidableEq

/-- Embedding of the `dji_hist` download loop (05_online.py lines
325-343): for each symbol a request is issued; on a status code other
than 200 the loop prints `Error! Aborted` and breaks, otherwise the
symbol's historical rows are appended and the loop continues. `status`
and `hist` model the server's response to the issued request. -/
def djiLoop (status : String → ℕ) (hist : String → List ℚ) :
    List String → DjiState
  | [] => ⟨[], [], false⟩
  | s :: rest =>
      if status s ≠ 200 then ⟨[], [s], true⟩
      else
        let r := djiLoop status hist rest
        ⟨(s, hist s) :: r.data, s :: r.requested, r.aborted⟩

/-! ### 09_sklearn.py - the scaling assertion -/

/-- Semantics of `StandardScaler.transform` from the sklearn
documentation: each value is centred by the fitted mean and divided by
the fitted scale. -/
def scalerTransform (μ σ : ℚ) (xs : List ℚ) : List ℚ :=
  xs.map (fun x => (x - μ) / σ)

/-- Embedding of the manual computation of 09_sklearn.py lines 95-96:
`calc_result = x_alt - scaler.mean_` followed by
`calc_result /= scaler.scale_`, both elementwise. -/
def calc_result (μ σ : ℚ) (xs : List ℚ) : List ℚ :=
  (xs.map (fun x => x - μ)).map (fun y => y / σ)

/-- Embedding of the repository's own assertion at 09_sklearn.py line
100: `assert calc_result.mean() == x_alt_scaled.mean()`, a consistency
check relating the manual computation to the library transform. -/
def sklearnAssert (μ σ : ℚ) (xs : List ℚ) : Bool :=
  np_mean (calc_result μ σ xs) == np_mean (scalerTransform μ σ xs)

/-! ### Network endpoints and written artifacts across the lessons -/

/-- Boolean test that string `p` is an initial segment of string `u`. -/
def urlStartsWith (p u : String) : Bool :=
  p.toList.isPrefixOf u.toList

/-- Boolean test that string `suf` is a final segment of string `s`. -/
def strEndsWith (suf s : String) : Bool :=
  suf.toList.isSuffixOf s.toList

/-- Every URL the repository's code passes to `requests.get`,
`scrapy.Request` or (via `yfinance`) the Yahoo Finance history endpoint.
The `historical-price-full` entry is the base of the per-symbol URL
`base_url+filing+'/'+symbol` of 05_online.py line 331, whose suffix
varies over the loop. Sources: 05_online.py lines 161, 231, 277-283,
298-299, 331; 06_scraping.py lines 281, 409-414, 463-468;
13_financial_stats.py lines 193, 263, 282. -/
def requestURLs : List String :=
  [ "https://en.wikipedia.org/w/api.php"
  , "https://en.wikipedia.org/wiki/University_of_Passau"
  , "https://financialmodelingprep.com/api/v3/profile/GOOG"
  , "https://financialmodelingprep.com/api/v3/dowjones_constituent"
  , "https://financialmodelingprep.com/api/v3/historical-price-full/AAPL"
  , "https://finance.yahoo.com/quote/AAPL/analysis?p=AAPL"
  , "http://www.example.com"
  ]

/-- Every remote URL the repository's code reads tabular data from with
`pd.read_csv`. Sources: 07_graphics.py line 31, 08_interactive_plots.py
line 245, 08_interactive_plots_temp.py line 245, 09_dash_II.py line 197,
_10_dash_II_alt.py line 357. -/
def remoteCSVURLs : List String :=
  [ "https://www.dropbox.com/s/sbqezclbr7qkx5r/BankChurners_mod.csv?dl=1"
  , "https://www.dropbox.com/s/inw5s8x4pp0p0kh/historical_data.csv?dl=1"
  , "https://raw.githubusercontent.com/plotly/datasets/master/imports-85.csv"
  ]

/-- The endpoints the claim allows: public HTTP APIs of Wikipedia, the
financial-data provider and Yahoo Finance. -/
def claimAllowed (u : String) : Bool :=
  [ "https://en.wikipedia.org/"
  , "https://financialmodelingprep.com/"
  , "https://finance.yahoo.com/"
  ].any (fun p => urlStartsWith p u)

/-- The endpoints actually contacted: the claim's three services plus
`www.example.com` (the scrapy examples), Dropbox and
`raw.githubusercontent.com` (remote CSV reads). -/
def amendedAllowed (u : String) : Bool :=
  claimAllowed u ||
  [ "http://www.example.com"
  , "https://www.dropbox.com/"
  , "https://raw.githubusercontent.com/"
  ].any (fun p => urlStartsWith p u)

/-- Durable files written by each lesson script, as `(lesson, path)`
pairs: 04_data.py lines 182 (`to_excel`) and 302-311 (`to_sql` into the
SQLite database file), 08_interactive_plots.py lines 547-560
(`write_html`, `write_image`). -/
def lessonWrites : List (String × String) :=
  [ ("04_data", "DAX.xlsx")
  , ("04_data", "data/dax_db.sqlite")
  , ("08_interactive_plots", "plotly.html")
  , ("08_interactive_plots", "plotly.pdf")
  , ("08_interactive_plots", "plotly.png")
  ]

/-- Local files read by each lesson script, as `(lesson, path)` pairs:
04_data.py lines 173 and 329-331, 08_interactive_plots.py lines 29-30,
08_interactive_plots_temp.py lines 29-30, 09_sklearn.py line 128,
10_dash_II.py line 159, _10_dash_II_alt.py line 151. -/
def lessonReads : List (String × String) :=
  [ ("04_data", "data/DAX.csv")
  , ("04_data", "data/dax_db.sqlite")
  , ("08_interactive_plots", "data/dax.xlsx")
  , ("08_interactive_plots", "data/BankChurners.csv")
  , ("08_interactive_plots_temp", "/users/jan/data/dax.xlsx")
  , ("08_interactive_plots_temp", "/users/jan/data/BankChurners.csv")
  , ("09_sklearn", "data/insurance.csv")
  , ("10_dash_II", "data/dji_sector_prices.csv")
  , ("_10_dash_II_alt", "data/dji_100_days.csv")
  ]

/-- The claim's notion of an allowed durable artifact: a CSV or SQLite
file. -/
def isCsvOrSqlite (p : String) : Bool :=
  strEndsWith ".csv" p || strEndsWith ".sqlite" p

/-- No lesson reads a file that a different lesson writes: every read
path either belongs to the writing lesson itself or differs from every
written path. -/
def noCrossLessonRead : Bool :=
  lessonReads.all (fun r =>
    lessonWrites.all (fun w => w.1 == r.1 || w.2 != r.2))

/-- A three-page website for exercising the spider: page `A` links to
`B`, page `B` links to `C`, and `C` has no links. -/
def exampleWeb : String → List String := fun u =>
  if u = "A" then ["B"] else if u = "B" then ["C"] else []

/-! ## Auxiliary lemmas -/

theorem my_mean_foldl (xs : List ℚ) : ∀ (a : ℚ) (n : ℕ),
    xs.foldl (fun acc el => (acc.1 + el, acc.2 + 1)) (a, n)
      = (a + xs.sum, n + xs.length) := by
  induction xs with
  | nil => intro a n; simp
  | cons x t ih =>
      intro a n
      rw [List.foldl_cons, ih]
      refine Prod.ext ?_ ?_
      · simp [List.sum_cons]; ring
      · simp [List.length_cons]; omega

theorem yield_list_from_eq : ∀ (k i n : ℕ), n - i = k →
    yield_list_from i n = List.range' i k := by
  intro k
  induction k with
  | zero =>
      intro i n hk
      rw [yield_list_from, dif_neg (by omega)]
      simp [List.range']
  | succ k ih =>
      intro i n hk
      rw [yield_list_from, dif_pos (by omega), ih (i + 1) n (by omega)]
      simp [List.range']

theorem my_factorial_nat : ∀ (m fuel : ℕ), m < fuel →
    my_factorial fuel (m : ℤ) = some (Nat.factorial m) := by
  intro m
  induction m with
  | zero =>
      intro fuel h
      cases fuel with
      | zero => omega
      | succ f => simp [my_factorial, Nat.factorial]
  | succ m ih =>
      intro fuel h
      cases fuel with
      | zero => omega
      | succ f =>
          have h1 : ((m + 1 : ℕ) : ℤ) ≠ 0 := by exact_mod_cast Nat.succ_ne_zero m
          have h2 : ((m + 1 : ℕ) : ℤ) - 1 = ((m : ℕ) : ℤ) := by push_cast; ring
          simp only [my_factorial]
          rw [if_neg h1, h2, ih f (by omega)]
          simp [Nat.factorial_succ]

theorem my_factorial_negative : ∀ (fuel : ℕ) (n : ℤ), n < 0 →
    my_factorial fuel n = none := by
  intro fuel
  induction fuel with
  | zero => intro n _; rfl
  | succ f ih =>
      intro n h
      simp only [my_factorial]
      rw [if_neg (by omega), ih (n - 1) (by omega)]
      rfl

theorem runCrawl_parse_only (web : String → List String) :
    ∀ (ls : List String) (fuel : ℕ), ls.length ≤ fuel →
    runCrawl web fuel (ls.map (fun l => (l, Callback.parse))) = ls := by
  intro ls
  induction ls with
  | nil => intro fuel _; cases fuel <;> rfl
  | cons a t ih =>
      intro fuel h
      cases fuel with
      | zero => exact absurd h (by simp)
      | succ f =>
          have ht : t.length ≤ f := by simp at h; omega
          simp only [List.map_cons, runCrawl, cbRequests, List.append_nil]
          rw [ih f ht]

/-! ## Claim theorems -/

/-- C1 counterexample: the claim says no function defined in the lesson
scripts computes a result that depends only on its arguments; but
`my_mean` from 03_python_basics.py is such a function, and on the very
input the script feeds it (`[1,2,3,4,5,6,7]`) it deterministically
computes `4`, matching the `4.0` the executed notebook printed. -/
theorem my_mean_concrete : my_mean [1, 2, 3, 4, 5, 6, 7] = 4 := by
  norm_num [my_mean, List.foldl]

/-- C1 (amended): the lesson scripts do contain deterministic,
self-contained logic admitting invariants independent of network,
plotting or random seeding: `my_mean` depends only on its list argument
and always equals `np.mean`'s documented value, the sum divided by the
length. -/
theorem my_mean_matches_np_mean (xs : List ℚ) : my_mean xs = np_mean xs := by
  unfold my_mean np_mean
  rw [my_mean_foldl xs 0 0]
  simp

/-- C2 counterexample: on a website where page `A` links to `B`, `B`
links to `C` and `C` has no links, the `followSpider` crawl seeded at
`A` fetches exactly `A` and `B` and never requests `C`, even though the
last fetched page `B` still has links; so the crawl does not recurse
through pages until a page with no links is reached. -/
theorem followSpider_not_recursive :
    followSpiderCrawl exampleWeb "A" 5 = ["A", "B"] ∧
    exampleWeb "B" = ["C"] ∧
    "C" ∉ followSpiderCrawl exampleWeb "A" 5 := by decide

/-- C2 (amended): the crawl goes exactly one level deep: the seed's
handler `parse_links` extracts every href and issues a follow-up request
for each, but those requests are handled with `parse`, which extracts no
links and yields no further request, so for any website and any fuel
covering the seed page's links the pages fetched are exactly the seed
followed by the seed page's links. -/
theorem followSpider_crawl_depth (web : String → List String) (seed : String)
    (fuel : ℕ) (h : (web seed).length + 1 ≤ fuel) :
    followSpiderCrawl web seed fuel = seed :: web seed := by
  cases fuel with
  | zero => exact absurd h (by omega)
  | succ f =>
      simp only [followSpiderCrawl, runCrawl, cbRequests, List.nil_append]
      rw [runCrawl_parse_only web (web seed) f (by omega)]

/-- Witness for C2's amended theorem at a concrete website and seed. -/
theorem followSpider_crawl_depth_witness :
    ((fun u => if u = "A" then ["B", "C"] else []) "A").length + 1 ≤ 3 ∧
    followSpiderCrawl (fun u => if u = "A" then ["B", "C"] else []) "A" 3
      = ["A", "B", "C"] := by
  refine ⟨by decide, ?_⟩
  exact (followSpider_crawl_depth (fun u => if u = "A" then ["B", "C"] else [])
    "A" 3 (by decide)).trans (by decide)

/-- C3 counterexample: the download loop of 05_online.py does more than
print a failed status code: when the second of three symbols answers
404, the loop keeps the data collected for the first symbol, requests
nothing after the failing symbol, and sets the aborted flag - i.e. a
`break` implements a partial-failure behavior. -/
theorem djiLoop_break_concrete :
    djiLoop (fun s => if s = "MSFT" then 404 else 200) (fun _ => [1])
        ["AAPL", "MSFT", "CAT"]
      = ⟨[("AAPL", [1])], ["AAPL", "MSFT"], true⟩ ∧
    "CAT" ∉ (djiLoop (fun s => if s = "MSFT" then 404 else 200) (fun _ => [1])
        ["AAPL", "MSFT", "CAT"]).requested := by decide

/-- C3 (amended): on the first non-200 response the loop prints the
error and breaks: the collected data is exactly the rows of the longest
all-200 prefix of the symbol list, the aborted flag is set exactly when
some symbol fails, and the requested symbols are that prefix plus at
most the single first failing symbol - no retry, and nothing after the
first failure is ever requested. -/
theorem djiLoop_characterization (status : String → ℕ) (hist : String → List ℚ)
    (symbols : List String) :
    (djiLoop status hist symbols).data
      = (symbols.takeWhile (fun s => status s == 200)).map (fun s => (s, hist s))
    ∧ (djiLoop status hist symbols).aborted
      = !(symbols.all (fun s => status s == 200))
    ∧ (djiLoop status hist symbols).requested
      = symbols.takeWhile (fun s => status s == 200)
        ++ (symbols.drop (symbols.takeWhile (fun s => status s == 200)).length).take 1 := by
  induction symbols with
  | nil => exact ⟨rfl, rfl, rfl⟩
  | cons s rest ih =>
      obtain ⟨ih1, ih2, ih3⟩ := ih
      by_cases h : status s = 200
      · have hb : (status s == 200) = true := by simp [h]
        refine ⟨?_, ?_, ?_⟩
        · simp [djiLoop, h, List.takeWhile_cons, hb, ih1]
        · simp [djiLoop, h, List.all_cons, hb, ih2]
        · simp [djiLoop, h, List.takeWhile_cons, hb, ih3, List.length_cons,
            List.drop_succ_cons]
      · have hb : (status s == 200) = false := by simp [h]
        refine ⟨?_, ?_, ?_⟩ <;>
          simp [djiLoop, h, List.takeWhile_cons, List.all_cons, hb]

/-- C4 counterexample: the claim says no consistency guarantee (such as
an assertion relating two results) is layered on top of library calls by
the repository's own code; but 09_sklearn.py line 100 asserts that the
mean of the manually scaled data equals the mean of the library-scaled
data, and here that repository-written assertion is evaluated at a
concrete input, where it passes. -/
theorem sklearnAssert_concrete : sklearnAssert 2 5 [1, 3, 9] = true := by
  norm_num [sklearnAssert, calc_result, scalerTransform, np_mean, beq_iff_eq]

/-- C4 (amended): the repository does layer a few consistency guarantees
of its own on top of the library calls - `assert df.equals(df2)` in
04_data.py, the mean-equality assertion in 09_sklearn.py, and the
status-code check with `break` in 05_online.py; the sklearn assertion
relates the manual standardisation to the library transform, and in
exact arithmetic the two computations agree identically, so the asserted
check always passes. -/
theorem sklearnAssert_always_true (μ σ : ℚ) (xs : List ℚ) :
    calc_result μ σ xs = scalerTransform μ σ xs ∧ sklearnAssert μ σ xs = true := by
  have h : calc_result μ σ xs = scalerTransform μ σ xs := by
    simp [calc_result, scalerTransform, List.map_map]
  exact ⟨h, by simp [sklearnAssert, h]⟩

/-- C5 counterexample: the claim says the repository introduces no custom
entity type and no repository-defined class whose constructor
establishes properties of its fields; but 03_python_basics.py defines
`Student` and `LocalResident`, and on the script's own inputs the
constructors establish the fields and the `avg_grade` method computes
the average grade `2` the notebook printed. -/
theorem Student_custom_entity_concrete :
    (Student.init "Passau" "Art" [13/10, 17/10, 3]).uni = "Passau" ∧
    (Student.init "Passau" "Art" [13/10, 17/10, 3]).avg_grade = 2 ∧
    (LocalResident.init "Passau" "Art" [13/10, 17/10, 3, 5] "Innstr. 27").address
      = "Innstr. 27" := by
  refine ⟨rfl, ?_, rfl⟩
  norm_num [Student.init, Student.avg_grade, np_mean]

/-- C5 (amended): the lesson scripts do define two custom entity types
of their own, the tutorial classes `Student` and `LocalResident` (plus
the spider subclasses of 06_scraping.py); their constructors establish
the stored fields, and `LocalResident.__init__` delegates to the
`Student` constructor via `super()`; all other entities come from the
external libraries. -/
theorem Student_constructor_fields (u s : String) (g : List ℚ) (a : String) :
    (Student.init u s g).uni = u ∧
    (Student.init u s g).subject = s ∧
    (Student.init u s g).grades = g ∧
    (LocalResident.init u s g a).toStudent = Student.init u s g ∧
    (LocalResident.init u s g a).address = a :=
  ⟨rfl, rfl, rfl, rfl, rfl⟩

/-- Witness for C5's amended theorem at concrete constructor inputs. -/
theorem Student_constructor_fields_witness :
    (Student.init "Regensburg" "Physics" [1, 2]).uni = "Regensburg" ∧
    (Student.init "Regensburg" "Physics" [1, 2]).subject = "Physics" ∧
    (Student.init "Regensburg" "Physics" [1, 2]).grades = [1, 2] ∧
    (LocalResident.init "Regensburg" "Physics" [1, 2] "Innstr. 27").toStudent
      = Student.init "Regensburg" "Physics" [1, 2] ∧
    (LocalResident.init "Regensburg" "Physics" [1, 2] "Innstr. 27").address
      = "Innstr. 27" :=
  Student_constructor_fields "Regensburg" "Physics" [1, 2] "Innstr. 27"

/-- C6 counterexample: the claim says every network request targets
Wikipedia, the financial-data provider or Yahoo Finance and every other
data access is local file I/O; but the scrapy spiders request
`http://www.example.com` and 07_graphics.py reads a CSV over the network
from Dropbox, neither of which is one of the claim's three services. -/
theorem example_com_outside_claim :
    "http://www.example.com" ∈ requestURLs ∧
    claimAllowed "http://www.example.com" = false ∧
    "https://www.dropbox.com/s/sbqezclbr7qkx5r/BankChurners_mod.csv?dl=1"
      ∈ remoteCSVURLs ∧
    claimAllowed "https://www.dropbox.com/s/sbqezclbr7qkx5r/BankChurners_mod.csv?dl=1"
      = false := by decide

/-- C6 (amended): every remote endpoint the code contacts is Wikipedia,
the financial-data provider, Yahoo Finance, `www.example.com` (the
scrapy teaching examples), Dropbox or `raw.githubusercontent.com` (the
two latter for remote CSV reads); all other data access is local
CSV/Excel/SQLite file I/O. -/
theorem all_endpoints_amended (u : String)
    (hu : u ∈ requestURLs ++ remoteCSVURLs) : amendedAllowed u = true := by
  have h : (requestURLs ++ remoteCSVURLs).all amendedAllowed = true := by decide
  exact List.all_eq_true.mp h u hu

/-- Witness for C6's amended theorem at a concrete contacted URL. -/
theorem all_endpoints_amended_witness :
    "http://www.example.com" ∈ requestURLs ++ remoteCSVURLs ∧
    amendedAllowed "http://www.example.com" = true :=
  ⟨by decide, all_endpoints_amended "http://www.example.com" (by decide)⟩

/-- C7 counterexample: the claim says a lesson script writes no durable
artifact other than the example CSV/SQLite files; but 04_data.py line
182 writes the Excel file `DAX.xlsx`, which is neither a CSV nor a
SQLite file (as are the HTML/PDF/PNG exports of
08_interactive_plots.py). -/
theorem dax_xlsx_artifact :
    ("04_data", "DAX.xlsx") ∈ lessonWrites ∧
    isCsvOrSqlite "DAX.xlsx" = false ∧
    ("08_interactive_plots", "plotly.html") ∈ lessonWrites ∧
    isCsvOrSqlite "plotly.html" = false := by decide

/-- C7 (amended): the lessons also write an Excel file and HTML/PDF/PNG
plot exports, but the second half of the claim stands: no lesson script
reads a file that a different lesson script writes - every read path
either belongs to the writing lesson itself or differs from every
written path. -/
theorem no_cross_lesson_read_holds : noCrossLessonRead = true := by decide

/-- C8 (confirmed): for every natural number `n`, the list returned by
`return_list n` equals the full sequence of values yielded by the
generator `yield_list n`, both being exactly `[0, 1, ..., n-1]`, the
same sequence as `range(n)`. -/
theorem return_list_eq_yield_list (n : ℕ) :
    return_list n = yield_list n ∧ yield_list n = List.range n := by
  have h : yield_list n = List.range n := by
    rw [yield_list, yield_list_from_eq n 0 n (by omega), List.range_eq_range']
  exact ⟨by simp [return_list, h], h⟩

/-- C9 (confirmed): `awe_osc` is commutative in its two window-size
arguments: for all positive window sizes `a` and `b` and any high/low
price series, swapping the windows gives the same dataframe, because the
function normalises the pair so that the smaller window is the fast one
and the column name always lists the smaller window first. -/
theorem awe_osc_comm (high low : List ℚ) (a b : ℕ) (_ha : 0 < a) (_hb : 0 < b) :
    awe_osc high low a b = awe_osc high low b a := by
  unfold awe_osc
  rcases Nat.lt_trichotomy a b with h | h | h
  · rw [if_neg (by omega), if_pos h]
  · subst h; rfl
  · rw [if_pos h, if_neg (by omega)]

/-- Witness for C9 at the concrete windows 2 and 3. -/
theorem awe_osc_comm_witness :
    0 < 2 ∧ 0 < 3 ∧
    awe_osc [1, 2] [0, 1] 2 3 = awe_osc [1, 2] [0, 1] 3 2 :=
  ⟨by decide, by decide, awe_osc_comm [1, 2] [0, 1] 2 3 (by decide) (by decide)⟩

/-- C10 (confirmed): for every integer `n ≥ 0` the recursion of
`my_factorial` reaches the base case - any fuel beyond `n` suffices -
and returns `n!`, the value of `math.factorial(n)`; for negative `n` the
recursion never reaches the base case: no amount of fuel produces a
result. -/
theorem my_factorial_spec (n : ℤ) :
    (0 ≤ n → ∀ fuel, n.toNat < fuel →
      my_factorial fuel n = some (Nat.factorial n.toNat)) ∧
    (n < 0 → ∀ fuel, my_factorial fuel n = none) := by
  constructor
  · intro h0 fuel hf
    have h := my_factorial_nat n.toNat fuel hf
    rwa [Int.toNat_of_nonneg h0] at h
  · intro hneg fuel
    exact my_factorial_negative fuel n hneg

/-- Witness for C10 at `n = 5` (with fuel 6) and `n = -1`. -/
theorem my_factorial_spec_witness :
    my_factorial 6 5 = some 120 ∧ my_factorial 3 (-1) = none :=
  ⟨((my_factorial_spec 5).1 (by decide) 6 (by decide)).trans (by decide),
   (my_factorial_spec (-1)).2 (by decide) 3⟩

end ReportingPython
